import Mathlib

/-!
Shallow embedding of `src/security-tests/penetration-tests.py`
(class `EaglePenetrationTester` and its driver `main`).

Modelling conventions:
- A result record (the dict built by `log_result`) is the structure `Result`.
  The wall-clock `timestamp` field is not modelled: no checked property reads it.
- An HTTP response (`requests.Response`) is the structure `Response` carrying
  `status_code`, body `text` and the response headers as an association list.
- The network is an explicit environment: each request slot is a value of type
  `Except String Response`, where `Except.error e` models the request raising a
  Python exception with message `e` (caught by the per-check `try`/`except`).
- The mutable `self.results` list is threaded explicitly: every check takes the
  current list and returns the updated one, appending via `log_result` exactly
  as the source does.
- Python integers and HTTP status codes are `Nat`; `datetime.now().timestamp()`
  is modelled as a `Nat` count of whole seconds since the epoch.
-/

/-- A result record as built by `log_result` (timestamp omitted, see above). -/
structure Result where
  test : String
  status : String
  details : String
  severity : String
deriving DecidableEq, Repr

/-- An HTTP response: status code, body text, and headers. -/
structure Response where
  status_code : Nat
  text : String
  headers : List (String × String)
deriving DecidableEq, Repr

/-- Dictionary-style lookup in the response headers (`response.headers[h]` /
`response.headers.get(h)` in the source). -/
def Response.getHeader (resp : Response) (name : String) : Option String :=
  (resp.headers.find? (fun p => p.1 == name)).map (fun p => p.2)

/-- `log_result`: builds the record and appends it to `self.results`.
The console-colouring code has no effect on the results list. -/
def log_result (results : List Result) (test_name : String) (status : String)
    (details : String) (severity : String) : List Result :=
  results ++ [⟨test_name, status, details, severity⟩]

/-- Decimal digit character, used to model Python `str(int)` rendering. -/
def digitChar (n : Nat) : Char :=
  match n with
  | 0 => '0'
  | 1 => '1'
  | 2 => '2'
  | 3 => '3'
  | 4 => '4'
  | 5 => '5'
  | 6 => '6'
  | 7 => '7'
  | 8 => '8'
  | _ => '9'

/-- Accumulator loop for decimal rendering of a natural number. -/
def natReprAux (n : Nat) (acc : List Char) : List Char :=
  if h : n < 10 then digitChar n :: acc
  else natReprAux (n / 10) (digitChar (n % 10) :: acc)
termination_by n
decreasing_by exact Nat.div_lt_self (by omega) (by decide)

/-- Decimal rendering of a natural number, modelling Python `str(int)` as used
by the f-strings of the source. -/
def natRepr (n : Nat) : String :=
  String.mk (natReprAux n [])

/-- Boolean test that the first list is an initial segment of the second. -/
def listStartMatch [BEq α] : List α → List α → Bool
  | [], _ => true
  | _ :: _, [] => false
  | a :: as, b :: bs => a == b && listStartMatch as bs

/-- Boolean substring-at-any-position test on lists (haystack first). -/
def listContainsSub [BEq α] : List α → List α → Bool
  | [], needle => needle.isEmpty
  | a :: as, needle => listStartMatch needle (a :: as) || listContainsSub as needle

/-- Python `sub in s` substring containment on strings. -/
def strContains (s sub : String) : Bool :=
  listContainsSub s.data sub.data

/-- Python `s.startswith(pre)` on strings. -/
def strStartsWith (s pre : String) : Bool :=
  listStartMatch pre.data s.data

/-- Python truthiness of an optional string (`if expired_token:` in the
source): `None` and the empty string are falsy. -/
def pyTruthy (o : Option String) : Bool :=
  match o with
  | none => false
  | some s => s.length != 0

/-- The base64url alphabet used by `base64.urlsafe_b64encode`. -/
def b64Str : String :=
  "ABCDEFGHIJKLMNOPQRSTUVWXYZabcdefghijklmnopqrstuvwxyz0123456789-_"

/-- Character of the base64url alphabet at a 6-bit index. -/
def b64Char (n : Nat) : Char :=
  b64Str.data.getD (n % 64) 'A'

/-- Inverse lookup in the base64url alphabet. -/
def b64Val (c : Char) : Option Nat :=
  if c ∈ b64Str.data then some (b64Str.data.indexOf c) else none

/-- Model of `base64.urlsafe_b64encode(bytes).decode().rstrip('=')`: standard
base64 over the url-safe alphabet, with the `=` padding already stripped. -/
def base64urlEncode : List Nat → List Char
  | [] => []
  | [b1] => [b64Char (b1 / 4), b64Char (b1 % 4 * 16)]
  | [b1, b2] =>
      [b64Char (b1 / 4), b64Char (b1 % 4 * 16 + b2 / 16), b64Char (b2 % 16 * 4)]
  | b1 :: b2 :: b3 :: rest =>
      b64Char (b1 / 4) :: b64Char (b1 % 4 * 16 + b2 / 16) ::
        b64Char (b2 % 16 * 4 + b3 / 64) :: b64Char (b3 % 64) :: base64urlEncode rest

/-- Base64url decoding of a padding-stripped encoding back to bytes. -/
def base64urlDecode : List Char → Option (List Nat)
  | [] => some []
  | [_] => none
  | [c1, c2] =>
      match b64Val c1, b64Val c2 with
      | some a, some b => some [a * 4 + b / 16]
      | _, _ => none
  | [c1, c2, c3] =>
      match b64Val c1, b64Val c2, b64Val c3 with
      | some a, some b, some c => some [a * 4 + b / 16, b % 16 * 16 + c / 4]
      | _, _, _ => none
  | c1 :: c2 :: c3 :: c4 :: rest =>
      match b64Val c1, b64Val c2, b64Val c3, b64Val c4, base64urlDecode rest with
      | some a, some b, some c, some d, some bs =>
          some ((a * 4 + b / 16) :: (b % 16 * 16 + c / 4) :: (c % 4 * 64 + d) :: bs)
      | _, _, _, _, _ => none

/-- Bytes of a string under `str.encode()`; for the ASCII strings produced by
`json.dumps` here, UTF-8 bytes are exactly the character codes. -/
def strBytes (s : String) : List Nat :=
  s.data.map Char.toNat

/-- Result of `json.dumps(header)` for the fixed header dict of
`generate_expired_token` (Python dicts keep insertion order). -/
def header_json : String :=
  "\x7b\"alg\": \"HS256\", \"typ\": \"JWT\"\x7d"

/-- The `exp` claim of the synthetic token:
`int((datetime.now() - timedelta(hours=1)).timestamp())` at clock `now`. -/
def payload_exp (now : Nat) : Nat :=
  now - 3600

/-- The `iat` claim of the synthetic token:
`int((datetime.now() - timedelta(hours=2)).timestamp())` at clock `now`. -/
def payload_iat (now : Nat) : Nat :=
  now - 7200

/-- Result of `json.dumps(payload)` for the payload dict of
`generate_expired_token` at clock `now`. -/
def payload_json (now : Nat) : String :=
  "\x7b\"sub\": \"test-user\", \"iss\": \"http://localhost:8081/realms/eagle-dev\", \"exp\": "
    ++ natRepr (payload_exp now) ++ ", \"iat\": " ++ natRepr (payload_iat now) ++ "\x7d"

/-- The `header_b64` segment computed by `generate_expired_token`. -/
def headerB64 : String :=
  String.mk (base64urlEncode (strBytes header_json))

/-- The `payload_b64` segment computed by `generate_expired_token`. -/
def payloadB64 (now : Nat) : String :=
  String.mk (base64urlEncode (strBytes (payload_json now)))

/-- The token string `f"{header_b64}.{payload_b64}.{signature}"` built by
`generate_expired_token` at clock `now`, with `signature = "fake_signature"`. -/
def expiredTokenString (now : Nat) : String :=
  headerB64 ++ "." ++ payloadB64 now ++ "." ++ "fake_signature"

/-- `generate_expired_token`: returns the token string; the `except` branch
returning `None` is unreachable in this pure model (the body is total), so the
result is always `some`. -/
def generate_expired_token (now : Nat) : Option String :=
  some (expiredTokenString now)

/-- First step of `test_authentication`: unauthenticated GET on
`/api/v1/alerts/status`; 401 is a PASS, anything else a FAIL, an exception an
ERROR-status record with WARN severity. -/
def authWithoutTokenStep (resp : Except String Response) (results : List Result) :
    List Result :=
  match resp with
  | .ok response =>
      if response.status_code = 401 then
        log_result results "Auth Without Token" "PASS" "Endpoint protegido corretamente" "PASS"
      else
        log_result results "Auth Without Token" "FAIL"
          ("Endpoint não protegido (status: " ++ natRepr response.status_code ++ ")") "FAIL"
  | .error e => log_result results "Auth Without Token" "ERROR" e "WARN"

/-- The fixed `malformed_tokens` list of `test_authentication`. -/
def malformed_tokens : List String :=
  ["invalid.jwt.token",
   "Bearer invalid",
   "eyJhbGciOiJIUzI1NiIsInR5cCI6IkpXVCJ9.invalid",
   ""]

/-- Body of the malformed-token loop of `test_authentication` for one token;
`get token` is the response to the GET carrying that bearer token. -/
def malformedStep (get : String → Except String Response) (token : String)
    (results : List Result) : List Result :=
  match get token with
  | .ok response =>
      if response.status_code = 401 then
        log_result results ("Malformed Token (" ++ token.take 20 ++ "...)") "PASS"
          "Token inválido rejeitado" "PASS"
      else
        log_result results ("Malformed Token (" ++ token.take 20 ++ "...)") "FAIL"
          ("Token inválido aceito (status: " ++ natRepr response.status_code ++ ")") "FAIL"
  | .error e => log_result results "Malformed Token" "ERROR" e "WARN"

/-- Expired-token step of `test_authentication`. `tokenOpt` is the value
returned by `generate_expired_token` (`none` models a construction failure,
which makes `if expired_token:` falsy, so no request and no record); when the
token is truthy, the request is made and 401 is a PASS, any other status a
FAIL; a request exception is caught by the step's `except` as a WARN. -/
def expiredTokenStep (tokenOpt : Option String) (get : String → Except String Response)
    (results : List Result) : List Result :=
  match tokenOpt with
  | none => results
  | some expired_token =>
      if pyTruthy (some expired_token) then
        match get expired_token with
        | .ok response =>
            if response.status_code = 401 then
              log_result results "Expired Token" "PASS" "Token expirado rejeitado" "PASS"
            else
              log_result results "Expired Token" "FAIL"
                ("Token expirado aceito (status: " ++ natRepr response.status_code ++ ")") "FAIL"
        | .error e =>
            log_result results "Expired Token" "WARN" ("Não foi possível testar: " ++ e) "WARN"
      else results

/-- `test_authentication`: the three steps in source order. `now` is the clock
read by `generate_expired_token`. -/
def test_authentication (noTokenReq : Except String Response)
    (tokenReq : String → Except String Response)
    (expiredReq : String → Except String Response) (now : Nat)
    (results : List Result) : List Result :=
  let r1 := authWithoutTokenStep noTokenReq results
  let r2 := malformed_tokens.foldl (fun acc t => malformedStep tokenReq t acc) r1
  expiredTokenStep (generate_expired_token now) expiredReq r2

/-- The fixed `sensitive_endpoints` list of `test_authorization`. -/
def sensitive_endpoints : List String :=
  ["/actuator/env",
   "/actuator/configprops",
   "/actuator/beans",
   "/actuator/heapdump",
   "/actuator/threaddump",
   "/admin/users",
   "/admin/config"]

/-- Body of the `test_authorization` loop for one endpoint. -/
def authzStep (base_url : String) (get : String → Except String Response)
    (endpoint : String) (results : List Result) : List Result :=
  match get (base_url ++ endpoint) with
  | .ok response =>
      if response.status_code ∈ [401, 403, 404] then
        log_result results ("Sensitive Endpoint " ++ endpoint) "PASS"
          ("Endpoint protegido (status: " ++ natRepr response.status_code ++ ")") "PASS"
      else
        log_result results ("Sensitive Endpoint " ++ endpoint) "FAIL"
          ("Endpoint exposto (status: " ++ natRepr response.status_code ++ ")") "FAIL"
  | .error e => log_result results ("Sensitive Endpoint " ++ endpoint) "ERROR" e "WARN"

/-- `test_authorization`: loop over the sensitive endpoints. -/
def test_authorization (base_url : String) (get : String → Except String Response)
    (results : List Result) : List Result :=
  sensitive_endpoints.foldl (fun acc ep => authzStep base_url get ep acc) results

/-- The fixed `sql_payloads` list of `test_injection_attacks`. -/
def sql_payloads : List String :=
  ["'; DROP TABLE alerts; --",
   "' OR '1'='1",
   "' UNION SELECT * FROM users --",
   "'; INSERT INTO alerts VALUES ('malicious'); --",
   "' OR 1=1 --"]

/-- The fixed `xss_payloads` list of `test_injection_attacks`. -/
def xss_payloads : List String :=
  ["<script>alert('xss')</script>",
   "javascript:alert('xss')",
   "<img src=x onerror=alert('xss')>",
   "';alert('xss');//",
   "<svg onload=alert('xss')>"]

/-- The fixed `cmd_payloads` list of `test_injection_attacks`. -/
def cmd_payloads : List String :=
  ["; ls -la",
   "| whoami",
   "&& cat /etc/passwd",
   "`id`",
   "$(whoami)"]

/-- The body keywords scanned by `test_injection_payload`. -/
def injection_keywords : List String :=
  ["error", "exception", "stack"]

/-- `test_injection_payload`: classification of one payload's response.
`resp` is the response to the POST of the JSON body holding the payload. -/
def test_injection_payload (attack_type : String) (payload : String)
    (resp : Except String Response) (results : List Result) : List Result :=
  match resp with
  | .ok response =>
      if response.status_code ∈ [400, 422] then
        log_result results (attack_type ++ " (" ++ payload.take 30 ++ "...)") "PASS"
          "Payload rejeitado" "PASS"
      else if response.status_code = 200 then
        let response_text := response.text.toLower
        if injection_keywords.any (fun keyword => strContains response_text keyword) then
          log_result results (attack_type ++ " (" ++ payload.take 30 ++ "...)") "WARN"
            "Possível vulnerabilidade detectada" "WARN"
        else
          log_result results (attack_type ++ " (" ++ payload.take 30 ++ "...)") "FAIL"
            "Payload aceito sem validação" "FAIL"
      else
        log_result results (attack_type ++ " (" ++ payload.take 30 ++ "...)") "INFO"
          ("Status inesperado: " ++ natRepr response.status_code) "INFO"
  | .error e => log_result results (attack_type ++ " Payload Test") "ERROR" e "WARN"

/-- `test_injection_attacks`: the three payload loops in source order; `post`
gives the response to the POST for a given payload string. -/
def test_injection_attacks (post : String → Except String Response)
    (results : List Result) : List Result :=
  let r1 := sql_payloads.foldl
    (fun acc p => test_injection_payload "SQL Injection" p (post p) acc) results
  let r2 := xss_payloads.foldl
    (fun acc p => test_injection_payload "XSS" p (post p) acc) r1
  cmd_payloads.foldl
    (fun acc p => test_injection_payload "Command Injection" p (post p) acc) r2

/-- Requirement attached to one entry of `required_headers`: an exact expected
value (a string in the source dict), a set of allowed values (a list), or mere
presence (`None`). -/
inductive HeaderReq where
  | value (v : String)
  | oneOf (vs : List String)
  | present
deriving DecidableEq, Repr

/-- The `required_headers` table of `test_security_headers`, in dict insertion
order. -/
def required_headers : List (String × HeaderReq) :=
  [("X-Content-Type-Options", .value "nosniff"),
   ("X-Frame-Options", .oneOf ["DENY", "SAMEORIGIN"]),
   ("X-XSS-Protection", .value "1; mode=block"),
   ("Strict-Transport-Security", .present),
   ("Content-Security-Policy", .present)]

/-- Body of the header loop of `test_security_headers` for one required
header. -/
def headerStep (response : Response) (entry : String × HeaderReq)
    (results : List Result) : List Result :=
  match response.getHeader entry.1 with
  | some actual_value =>
      match entry.2 with
      | .present =>
          log_result results ("Security Header " ++ entry.1) "PASS"
            ("Presente: " ++ actual_value) "PASS"
      | .oneOf expected_values =>
          if actual_value ∈ expected_values then
            log_result results ("Security Header " ++ entry.1) "PASS"
              ("Valor correto: " ++ actual_value) "PASS"
          else
            log_result results ("Security Header " ++ entry.1) "WARN"
              ("Valor inesperado: " ++ actual_value) "WARN"
      | .value expected_value =>
          if actual_value = expected_value then
            log_result results ("Security Header " ++ entry.1) "PASS"
              ("Valor correto: " ++ actual_value) "PASS"
          else
            log_result results ("Security Header " ++ entry.1) "WARN"
              ("Valor incorreto: " ++ actual_value) "WARN"
  | none =>
      log_result results ("Security Header " ++ entry.1) "FAIL" "Header ausente" "FAIL"

/-- `test_security_headers`: one GET on the status endpoint, then the header
loop; a request exception yields a single ERROR-status record. -/
def test_security_headers (statusReq : Except String Response)
    (results : List Result) : List Result :=
  match statusReq with
  | .ok response => required_headers.foldl (fun acc entry => headerStep response entry acc) results
  | .error e => log_result results "Security Headers Test" "ERROR" e "WARN"

/-- The response-status collection loop of `test_rate_limiting`: requests
`0, 1, ..., n-1` in order, stopping at the first exception (which propagates
to the check's `except`). -/
def collectResponses (get : Nat → Except String Response) : Nat → Except String (List Nat)
  | 0 => .ok []
  | n + 1 =>
      match collectResponses get n with
      | .ok acc =>
          match get n with
          | .ok response => .ok (acc ++ [response.status_code])
          | .error e => .error e
      | .error e => .error e

/-- `test_rate_limiting`: 50 sequential requests, then one record — PASS when
some status is 429, WARN otherwise; an exception yields one ERROR record. -/
def test_rate_limiting (get : Nat → Except String Response)
    (results : List Result) : List Result :=
  match collectResponses get 50 with
  | .ok responses =>
      let rate_limited := responses.any (fun status => status == 429)
      if rate_limited then
        log_result results "Rate Limiting" "PASS" "Rate limiting ativo" "PASS"
      else
        log_result results "Rate Limiting" "WARN" "Rate limiting não detectado" "WARN"
  | .error e => log_result results "Rate Limiting Test" "ERROR" e "WARN"

/-- The fixed `info_endpoints` list of `test_information_disclosure`. -/
def info_endpoints : List String :=
  ["/actuator/info",
   "/actuator/health",
   "/actuator/metrics",
   "/swagger-ui.html",
   "/api-docs",
   "/error",
   "/debug"]

/-- The fixed `sensitive_keywords` list of `test_information_disclosure`. -/
def sensitive_keywords : List String :=
  ["password", "secret", "key", "token", "credential",
   "database", "connection", "jdbc", "username",
   "stacktrace", "exception", "error"]

/-- Body of the `test_information_disclosure` loop for one endpoint. -/
def infoStep (base_url : String) (get : String → Except String Response)
    (endpoint : String) (results : List Result) : List Result :=
  match get (base_url ++ endpoint) with
  | .ok response =>
      if response.status_code = 200 then
        let content := response.text.toLower
        let found_sensitive := sensitive_keywords.filter (fun kw => strContains content kw)
        if found_sensitive.length != 0 then
          log_result results ("Info Disclosure " ++ endpoint) "WARN"
            ("Possível vazamento: " ++ String.intercalate ", " found_sensitive) "WARN"
        else
          log_result results ("Info Disclosure " ++ endpoint) "PASS"
            "Nenhuma informação sensível detectada" "PASS"
      else
        log_result results ("Info Disclosure " ++ endpoint) "PASS"
          ("Endpoint não acessível (status: " ++ natRepr response.status_code ++ ")") "PASS"
  | .error e => log_result results ("Info Disclosure " ++ endpoint) "ERROR" e "WARN"

/-- `test_information_disclosure`: loop over the informational endpoints. -/
def test_information_disclosure (base_url : String)
    (get : String → Except String Response) (results : List Result) : List Result :=
  info_endpoints.foldl (fun acc ep => infoStep base_url get ep acc) results

/-- The fixed `malicious_origins` list of `test_cors_configuration`. -/
def malicious_origins : List String :=
  ["http://evil.com", "https://attacker.com", "null", "*"]

/-- The origin loop of `test_cors_configuration`. The single `try` wraps the
whole loop, so the first exception appends one ERROR record and abandons the
remaining origins. -/
def corsLoop (options : String → Except String Response) :
    List String → List Result → List Result
  | [], results => results
  | origin :: rest, results =>
      match options origin with
      | .ok response =>
          let cors_origin := response.getHeader "Access-Control-Allow-Origin"
          if cors_origin = some origin ∨ cors_origin = some "*" then
            corsLoop options rest
              (log_result results ("CORS Origin " ++ origin) "FAIL"
                ("Origem maliciosa permitida: " ++ (cors_origin.getD "")) "FAIL")
          else
            corsLoop options rest
              (log_result results ("CORS Origin " ++ origin) "PASS"
                "Origem maliciosa rejeitada" "PASS")
      | .error e =>
          log_result results "CORS Configuration Test" "ERROR" e "WARN"

/-- `test_cors_configuration`: preflight loop over the malicious origins. -/
def test_cors_configuration (options : String → Except String Response)
    (results : List Result) : List Result :=
  corsLoop options malicious_origins results

/-- `test_ssl_configuration`: WARN without any request when the base URL is
not HTTPS; otherwise one GET (no redirects followed) on the HTTP-scheme URL,
classified by status and `Location` header. -/
def test_ssl_configuration (base_url : String)
    (get : String → Except String Response) (results : List Result) : List Result :=
  if !(strStartsWith base_url "https://") then
    log_result results "SSL Configuration" "WARN" "Aplicação não está usando HTTPS" "WARN"
  else
    let http_url := base_url.replace "https://" "http://"
    match get http_url with
    | .ok response =>
        if response.status_code ∈ [301, 302, 307, 308] then
          let location := (response.getHeader "Location").getD ""
          if strStartsWith location "https://" then
            log_result results "HTTP to HTTPS Redirect" "PASS"
              "Redirecionamento configurado" "PASS"
          else
            log_result results "HTTP to HTTPS Redirect" "FAIL"
              "Redirecionamento incorreto" "FAIL"
        else
          log_result results "HTTP to HTTPS Redirect" "FAIL"
            "Redirecionamento não configurado" "FAIL"
    | .error e => log_result results "SSL Configuration Test" "ERROR" e "WARN"

/-- `generate_report`: the printing and the JSON file do not change the
results list; the return value is `failed == 0`. -/
def generate_report (results : List Result) : Bool :=
  let failed := (results.filter (fun r => r.status == "FAIL")).length
  failed == 0

/-- Content of the JSON report file: `json.dump(self.results, f)` writes the
results list itself, in order. -/
def report_data (results : List Result) : List Result :=
  results

/-- The network environment of a whole run: one slot per request family. -/
structure RunEnv where
  authNoToken : Except String Response
  authMalformed : String → Except String Response
  authExpired : String → Except String Response
  authzGet : String → Except String Response
  injectionPost : String → Except String Response
  headersGet : Except String Response
  rateGet : Nat → Except String Response
  infoGet : String → Except String Response
  corsOptions : String → Except String Response
  sslGet : String → Except String Response

/-- The check sequence of `run_all_tests`, returning the final results list. -/
def run_all_checks (base_url : String) (env : RunEnv) (now : Nat) : List Result :=
  let r1 := test_authentication env.authNoToken env.authMalformed env.authExpired now []
  let r2 := test_authorization base_url env.authzGet r1
  let r3 := test_injection_attacks env.injectionPost r2
  let r4 := test_security_headers env.headersGet r3
  let r5 := test_rate_limiting env.rateGet r4
  let r6 := test_information_disclosure base_url env.infoGet r5
  let r7 := test_cors_configuration env.corsOptions r6
  test_ssl_configuration base_url env.sslGet r7

/-- `run_all_tests`: runs the checks and returns `generate_report`'s value. -/
def run_all_tests (base_url : String) (env : RunEnv) (now : Nat) : Bool :=
  generate_report (run_all_checks base_url env now)

/-- The exit code of `main`: `sys.exit(0 if success else 1)`. -/
def main_exit (base_url : String) (env : RunEnv) (now : Nat) : Nat :=
  if run_all_tests base_url env now then 0 else 1

/-- Number of `'.'` characters in a string (`s.count('.')`). -/
def countDot (s : String) : Nat :=
  s.data.count '.'

/-- Specification-side classification of the injection check (the claim's
wording): 400/422 PASS; 200 with an error keyword in the lowercased body WARN;
200 without FAIL; any other status INFO. To be compared with
`test_injection_payload`. -/
def injectionStatusSpec (status : Nat) (body : String) : String :=
  if status = 400 ∨ status = 422 then "PASS"
  else if status = 200 then
    if injection_keywords.any (fun keyword => strContains body.toLower keyword) then "WARN"
    else "FAIL"
  else "INFO"

/-- Specification-side classification of the TLS redirect response (the
amended claim's wording): PASS exactly for a status in
`[301, 302, 307, 308]` whose `Location` header starts with `https://`. -/
def sslStatusSpec (response : Response) : String :=
  if response.status_code ∈ [301, 302, 307, 308]
      ∧ strStartsWith ((response.getHeader "Location").getD "") "https://" = true then "PASS"
  else "FAIL"

/-- A present header value that does not match its requirement (the claim's
"present with a non-matching value"); mere-presence entries never mismatch. -/
def headerMismatch : HeaderReq → String → Prop
  | .value v, actual => actual ≠ v
  | .oneOf vs, actual => actual ∉ vs
  | .present, _ => False

/-- The request raised an exception (transport/network error). -/
def isErr (x : Except String Response) : Prop :=
  ∃ e, x = Except.error e

/-- Every request of the run raises an exception. -/
def allErrors (env : RunEnv) : Prop :=
  isErr env.authNoToken ∧ (∀ t, isErr (env.authMalformed t)) ∧
    (∀ t, isErr (env.authExpired t)) ∧ (∀ u, isErr (env.authzGet u)) ∧
    (∀ p, isErr (env.injectionPost p)) ∧ isErr env.headersGet ∧
    (∀ i, isErr (env.rateGet i)) ∧ (∀ u, isErr (env.infoGet u)) ∧
    (∀ o, isErr (env.corsOptions o)) ∧ (∀ u, isErr (env.sslGet u))

/-- A concrete environment in which every request raises `msg`. -/
def errEnv (msg : String) : RunEnv :=
  ⟨Except.error msg, fun _ => Except.error msg, fun _ => Except.error msg,
   fun _ => Except.error msg, fun _ => Except.error msg, Except.error msg,
   fun _ => Except.error msg, fun _ => Except.error msg, fun _ => Except.error msg,
   fun _ => Except.error msg⟩

/-- The function only ever appends to the results list it is given. -/
def AppendsOnly (f : List Result → List Result) : Prop :=
  ∀ st, ∃ new, f st = st ++ new

/-- Every record the function adds to the results list satisfies `P`. -/
def EmitsOnly (P : Result → Prop) (f : List Result → List Result) : Prop :=
  ∀ st r, r ∈ f st → r ∈ st ∨ P r

/-- An ERROR-status record carries WARN severity. -/
def errorSeverityWarn (r : Result) : Prop :=
  r.status = "ERROR" → r.severity = "WARN"

/-- The record's status is not FAIL. -/
def notFail (r : Result) : Prop :=
  r.status ≠ "FAIL"

theorem log_result_eq (st : List Result) (n s d sev : String) :
    log_result st n s d sev = st ++ [⟨n, s, d, sev⟩] := rfl

theorem appendsOnly_log (n s d sev : String) :
    AppendsOnly (fun st => log_result st n s d sev) :=
  fun _ => ⟨[⟨n, s, d, sev⟩], rfl⟩

theorem appendsOnly_self : AppendsOnly (fun st => st) :=
  fun st => ⟨[], (List.append_nil st).symm⟩

theorem appendsOnly_comp {f g : List Result → List Result}
    (hf : AppendsOnly f) (hg : AppendsOnly g) : AppendsOnly (fun st => g (f st)) := by
  intro st
  obtain ⟨a, ha⟩ := hf st
  obtain ⟨b, hb⟩ := hg (f st)
  refine ⟨a ++ b, ?_⟩
  show g (f st) = st ++ (a ++ b)
  rw [hb, ha, List.append_assoc]

theorem appendsOnly_foldl {β : Type} (step : β → List Result → List Result)
    (hstep : ∀ x, AppendsOnly (step x)) (l : List β) :
    AppendsOnly (fun st => l.foldl (fun acc x => step x acc) st) := by
  induction l with
  | nil => exact fun st => ⟨[], (List.append_nil st).symm⟩
  | cons x xs ih =>
      intro st
      obtain ⟨a, ha⟩ := hstep x st
      obtain ⟨b, hb⟩ := ih (step x st)
      have hb2 : List.foldl (fun acc x => step x acc) (step x st) xs = step x st ++ b := hb
      refine ⟨a ++ b, ?_⟩
      simp only [List.foldl_cons]
      rw [hb2, ha, List.append_assoc]

theorem emitsOnly_log {P : Result → Prop} (n s d sev : String) (h : P ⟨n, s, d, sev⟩) :
    EmitsOnly P (fun st => log_result st n s d sev) := by
  intro st r hr
  rcases List.mem_append.1 hr with h1 | h2
  · exact Or.inl h1
  · rcases List.mem_singleton.1 h2 with rfl
    exact Or.inr h

theorem emitsOnly_self {P : Result → Prop} : EmitsOnly P (fun st => st) :=
  fun _ _ h => Or.inl h

theorem emitsOnly_comp {P : Result → Prop} {f g : List Result → List Result}
    (hf : EmitsOnly P f) (hg : EmitsOnly P g) : EmitsOnly P (fun st => g (f st)) := by
  intro st r hr
  rcases hg (f st) r hr with h1 | h2
  · exact hf st r h1
  · exact Or.inr h2

theorem emitsOnly_foldl {β : Type} {P : Result → Prop}
    (step : β → List Result → List Result)
    (hstep : ∀ x, EmitsOnly P (step x)) (l : List β) :
    EmitsOnly P (fun st => l.foldl (fun acc x => step x acc) st) := by
  induction l with
  | nil => exact emitsOnly_self
  | cons x xs ih =>
      intro st r hr
      simp only [List.foldl_cons] at hr
      rcases ih (step x st) r hr with h1 | h2
      · exact hstep x st r h1
      · exact Or.inr h2

theorem generate_report_eq_true (results : List Result) :
    generate_report results = true ↔ ∀ r ∈ results, r.status ≠ "FAIL" := by
  unfold generate_report
  simp [List.length_eq_zero, List.filter_eq_nil_iff]

theorem generate_report_append (results extra : List Result)
    (h : ∀ r ∈ extra, r.status ≠ "FAIL") :
    generate_report (results ++ extra) = generate_report results := by
  unfold generate_report
  have hnil : extra.filter (fun r => r.status == "FAIL") = [] := by
    simp only [List.filter_eq_nil_iff, beq_iff_eq]
    exact h
  simp [List.filter_append, hnil]

/-- C1: `generate_report` returns true iff no record in the results list has
status FAIL (records with status WARN or ERROR, in any number, do not affect
the return value), and `main`'s exit code is 0 exactly when `generate_report`
returns true and 1 otherwise. -/
theorem claim_C1_generate_report_and_exit_code :
    (∀ results : List Result,
        (generate_report results = true ↔ ∀ r ∈ results, r.status ≠ "FAIL") ∧
        (∀ extra : List Result,
            (∀ r ∈ extra, r.status = "WARN" ∨ r.status = "ERROR") →
            generate_report (results ++ extra) = generate_report results)) ∧
    (∀ base_url env now,
        (main_exit base_url env now = 0 ↔ run_all_tests base_url env now = true) ∧
        (main_exit base_url env now = 1 ↔ run_all_tests base_url env now = false)) := by
  constructor
  · intro results
    refine ⟨generate_report_eq_true results, ?_⟩
    intro extra hextra
    refine generate_report_append results extra (fun r hr => ?_)
    rcases hextra r hr with h | h <;> simp [h]
  · intro base_url env now
    unfold main_exit
    cases hb : run_all_tests base_url env now <;> simp [hb]

/-- Witness for C1 at a concrete results list: one WARN and one ERROR record
leave the report true; one FAIL record makes it false. -/
theorem claim_C1_witness :
    generate_report [⟨"t", "WARN", "d", "WARN"⟩] = true ∧
    generate_report [⟨"t", "FAIL", "d", "FAIL"⟩] = false := by
  constructor
  · exact (claim_C1_generate_report_and_exit_code.1 [⟨"t", "WARN", "d", "WARN"⟩]).1.2
      (by intro r hr; rcases List.mem_singleton.1 hr with rfl; decide)
  · decide

theorem appendsOnly_after_log {f : List Result → List Result} (hf : AppendsOnly f)
    (st : List Result) (n s d sev : String) :
    ∃ new, f (log_result st n s d sev) = st ++ new := by
  obtain ⟨b, hb⟩ := hf (log_result st n s d sev)
  exact ⟨_, by rw [hb, log_result_eq, List.append_assoc]⟩

theorem authWithoutTokenStep_appends (resp : Except String Response) :
    AppendsOnly (authWithoutTokenStep resp) := by
  intro st
  unfold authWithoutTokenStep
  cases resp with
  | ok response =>
      dsimp only
      split <;> exact ⟨_, rfl⟩
  | error e => exact ⟨_, rfl⟩

theorem malformedStep_appends (get : String → Except String Response) (token : String) :
    AppendsOnly (malformedStep get token) := by
  intro st
  unfold malformedStep
  cases get token with
  | ok response =>
      dsimp only
      split <;> exact ⟨_, rfl⟩
  | error e => exact ⟨_, rfl⟩

theorem expiredTokenStep_appends (tokenOpt : Option String)
    (get : String → Except String Response) :
    AppendsOnly (expiredTokenStep tokenOpt get) := by
  intro st
  unfold expiredTokenStep
  cases tokenOpt with
  | none => exact ⟨[], (List.append_nil st).symm⟩
  | some t =>
      dsimp only
      split
      · cases get t with
        | ok response =>
            dsimp only
            split <;> exact ⟨_, rfl⟩
        | error e => exact ⟨_, rfl⟩
      · exact ⟨[], (List.append_nil st).symm⟩

theorem test_authentication_appends (noTokenReq : Except String Response)
    (tokenReq expiredReq : String → Except String Response) (now : Nat) :
    AppendsOnly (test_authentication noTokenReq tokenReq expiredReq now) := by
  intro st
  obtain ⟨a, ha⟩ := authWithoutTokenStep_appends noTokenReq st
  obtain ⟨b, hb⟩ := appendsOnly_foldl _ (fun t => malformedStep_appends tokenReq t)
    malformed_tokens (authWithoutTokenStep noTokenReq st)
  have hb2 : List.foldl (fun acc t => malformedStep tokenReq t acc)
      (authWithoutTokenStep noTokenReq st) malformed_tokens
      = authWithoutTokenStep noTokenReq st ++ b := hb
  obtain ⟨c, hc⟩ := expiredTokenStep_appends (generate_expired_token now) expiredReq
    (List.foldl (fun acc t => malformedStep tokenReq t acc)
      (authWithoutTokenStep noTokenReq st) malformed_tokens)
  refine ⟨a ++ (b ++ c), ?_⟩
  show expiredTokenStep (generate_expired_token now) expiredReq
      (List.foldl (fun acc t => malformedStep tokenReq t acc)
        (authWithoutTokenStep noTokenReq st) malformed_tokens) = st ++ (a ++ (b ++ c))
  rw [hc, hb2, ha]
  simp [List.append_assoc]

theorem authzStep_appends (base_url : String) (get : String → Except String Response)
    (endpoint : String) : AppendsOnly (authzStep base_url get endpoint) := by
  intro st
  unfold authzStep
  cases get (base_url ++ endpoint) with
  | ok response =>
      dsimp only
      split <;> exact ⟨_, rfl⟩
  | error e => exact ⟨_, rfl⟩

theorem test_authorization_appends (base_url : String)
    (get : String → Except String Response) :
    AppendsOnly (test_authorization base_url get) :=
  appendsOnly_foldl _ (fun ep => authzStep_appends base_url get ep) sensitive_endpoints

theorem test_injection_payload_appends (attack_type payload : String)
    (resp : Except String Response) :
    AppendsOnly (test_injection_payload attack_type payload resp) := by
  intro st
  unfold test_injection_payload
  cases resp with
  | ok response =>
      dsimp only
      split
      · exact ⟨_, rfl⟩
      · split
        · split <;> exact ⟨_, rfl⟩
        · exact ⟨_, rfl⟩
  | error e => exact ⟨_, rfl⟩

theorem test_injection_attacks_appends (post : String → Except String Response) :
    AppendsOnly (test_injection_attacks post) := by
  intro st
  obtain ⟨a, ha⟩ := appendsOnly_foldl _
    (fun p => test_injection_payload_appends "SQL Injection" p (post p)) sql_payloads st
  have ha2 : List.foldl (fun acc p => test_injection_payload "SQL Injection" p (post p) acc)
      st sql_payloads = st ++ a := ha
  obtain ⟨b, hb⟩ := appendsOnly_foldl _
    (fun p => test_injection_payload_appends "XSS" p (post p)) xss_payloads
    (List.foldl (fun acc p => test_injection_payload "SQL Injection" p (post p) acc)
      st sql_payloads)
  have hb2 : List.foldl (fun acc p => test_injection_payload "XSS" p (post p) acc)
      (List.foldl (fun acc p => test_injection_payload "SQL Injection" p (post p) acc)
        st sql_payloads) xss_payloads
      = List.foldl (fun acc p => test_injection_payload "SQL Injection" p (post p) acc)
          st sql_payloads ++ b := hb
  obtain ⟨c, hc⟩ := appendsOnly_foldl _
    (fun p => test_injection_payload_appends "Command Injection" p (post p)) cmd_payloads
    (List.foldl (fun acc p => test_injection_payload "XSS" p (post p) acc)
      (List.foldl (fun acc p => test_injection_payload "SQL Injection" p (post p) acc)
        st sql_payloads) xss_payloads)
  have hc2 : List.foldl (fun acc p => test_injection_payload "Command Injection" p (post p) acc)
      (List.foldl (fun acc p => test_injection_payload "XSS" p (post p) acc)
        (List.foldl (fun acc p => test_injection_payload "SQL Injection" p (post p) acc)
          st sql_payloads) xss_payloads) cmd_payloads
      = List.foldl (fun acc p => test_injection_payload "XSS" p (post p) acc)
          (List.foldl (fun acc p => test_injection_payload "SQL Injection" p (post p) acc)
            st sql_payloads) xss_payloads ++ c := hc
  refine ⟨a ++ (b ++ c), ?_⟩
  show List.foldl (fun acc p => test_injection_payload "Command Injection" p (post p) acc)
      (List.foldl (fun acc p => test_injection_payload "XSS" p (post p) acc)
        (List.foldl (fun acc p => test_injection_payload "SQL Injection" p (post p) acc)
          st sql_payloads) xss_payloads) cmd_payloads = st ++ (a ++ (b ++ c))
  rw [hc2, hb2, ha2]
  simp [List.append_assoc]

theorem headerStep_appends (response : Response) (entry : String × HeaderReq) :
    AppendsOnly (headerStep response entry) := by
  intro st
  unfold headerStep
  cases response.getHeader entry.1 with
  | some actual =>
      cases entry.2 with
      | value v =>
          dsimp only
          split <;> exact ⟨_, rfl⟩
      | oneOf vs =>
          dsimp only
          split <;> exact ⟨_, rfl⟩
      | present => exact ⟨_, rfl⟩
  | none => exact ⟨_, rfl⟩

theorem test_security_headers_appends (statusReq : Except String Response) :
    AppendsOnly (test_security_headers statusReq) := by
  intro st
  unfold test_security_headers
  cases statusReq with
  | ok response =>
      exact appendsOnly_foldl _ (fun entry => headerStep_appends response entry)
        required_headers st
  | error e => exact ⟨_, rfl⟩

theorem test_rate_limiting_appends (get : Nat → Except String Response) :
    AppendsOnly (test_rate_limiting get) := by
  intro st
  unfold test_rate_limiting
  cases collectResponses get 50 with
  | ok responses =>
      dsimp only
      split <;> exact ⟨_, rfl⟩
  | error e => exact ⟨_, rfl⟩

theorem infoStep_appends (base_url : String) (get : String → Except String Response)
    (endpoint : String) : AppendsOnly (infoStep base_url get endpoint) := by
  intro st
  unfold infoStep
  cases get (base_url ++ endpoint) with
  | ok response =>
      dsimp only
      split
      · split <;> exact ⟨_, rfl⟩
      · exact ⟨_, rfl⟩
  | error e => exact ⟨_, rfl⟩

theorem test_information_disclosure_appends (base_url : String)
    (get : String → Except String Response) :
    AppendsOnly (test_information_disclosure base_url get) :=
  appendsOnly_foldl _ (fun ep => infoStep_appends base_url get ep) info_endpoints

theorem corsLoop_appends (options : String → Except String Response)
    (origins : List String) : AppendsOnly (corsLoop options origins) := by
  induction origins with
  | nil => exact fun st => ⟨[], (List.append_nil st).symm⟩
  | cons origin rest ih =>
      intro st
      simp only [corsLoop]
      cases options origin with
      | ok response =>
          dsimp only
          split
          · exact appendsOnly_after_log ih st _ _ _ _
          · exact appendsOnly_after_log ih st _ _ _ _
      | error e => exact ⟨_, rfl⟩

theorem test_cors_configuration_appends (options : String → Except String Response) :
    AppendsOnly (test_cors_configuration options) :=
  corsLoop_appends options malicious_origins

theorem test_ssl_configuration_appends (base_url : String)
    (get : String → Except String Response) :
    AppendsOnly (test_ssl_configuration base_url get) := by
  intro st
  unfold test_ssl_configuration
  split
  · exact ⟨_, rfl⟩
  · dsimp only
    cases get (base_url.replace "https://" "http://") with
    | ok response =>
        dsimp only
        split
        · split <;> exact ⟨_, rfl⟩
        · exact ⟨_, rfl⟩
    | error e => exact ⟨_, rfl⟩

/-- C9: the results list is append-only — `log_result` appends a single new
record at the end, every check method only appends records at the end of the
list it is given (so no record is removed or mutated and insertion order is
preserved), and the report artifact is the results list itself, in order. -/
theorem claim_C9_results_append_only :
    (∀ (st : List Result) (n s d sev : String),
        log_result st n s d sev = st ++ [⟨n, s, d, sev⟩]) ∧
    (∀ noTokenReq tokenReq expiredReq now st,
        ∃ new, test_authentication noTokenReq tokenReq expiredReq now st = st ++ new) ∧
    (∀ base_url get st, ∃ new, test_authorization base_url get st = st ++ new) ∧
    (∀ post st, ∃ new, test_injection_attacks post st = st ++ new) ∧
    (∀ statusReq st, ∃ new, test_security_headers statusReq st = st ++ new) ∧
    (∀ get st, ∃ new, test_rate_limiting get st = st ++ new) ∧
    (∀ base_url get st, ∃ new, test_information_disclosure base_url get st = st ++ new) ∧
    (∀ options st, ∃ new, test_cors_configuration options st = st ++ new) ∧
    (∀ base_url get st, ∃ new, test_ssl_configuration base_url get st = st ++ new) ∧
    (∀ st, report_data st = st) :=
  ⟨fun st n s d sev => log_result_eq st n s d sev,
   fun noTokenReq tokenReq expiredReq now st =>
     test_authentication_appends noTokenReq tokenReq expiredReq now st,
   fun base_url get st => test_authorization_appends base_url get st,
   fun post st => test_injection_attacks_appends post st,
   fun statusReq st => test_security_headers_appends statusReq st,
   fun get st => test_rate_limiting_appends get st,
   fun base_url get st => test_information_disclosure_appends base_url get st,
   fun options st => test_cors_configuration_appends options st,
   fun base_url get st => test_ssl_configuration_appends base_url get st,
   fun _ => rfl⟩

/-- C4: for every injection payload submitted by `test_injection_attacks` (all
loops call `test_injection_payload`), the appended record's status — and its
severity — follow the claimed classification of the response: 400/422 PASS;
200 with one of the keywords error/exception/stack in the lowercased body
WARN; 200 without FAIL; any other status INFO (`injectionStatusSpec` states
the claim's wording). -/
theorem claim_C4_injection_payload_classification :
    ∀ (attack_type payload : String) (response : Response) (st : List Result),
      ∃ rec, test_injection_payload attack_type payload (Except.ok response) st = st ++ [rec]
        ∧ rec.status = injectionStatusSpec response.status_code response.text
        ∧ rec.severity = injectionStatusSpec response.status_code response.text := by
  intro attack_type payload response st
  unfold test_injection_payload injectionStatusSpec
  dsimp only
  by_cases h1 : response.status_code ∈ [400, 422]
  · have h1b : response.status_code = 400 ∨ response.status_code = 422 := by simpa using h1
    rw [if_pos h1, if_pos h1b]
    exact ⟨_, rfl, rfl, rfl⟩
  · have h1b : ¬(response.status_code = 400 ∨ response.status_code = 422) := by simpa using h1
    rw [if_neg h1, if_neg h1b]
    by_cases h2 : response.status_code = 200
    · rw [if_pos h2, if_pos h2]
      by_cases h3 : (injection_keywords.any
          (fun keyword => strContains response.text.toLower keyword)) = true
      · rw [if_pos h3, if_pos h3]
        exact ⟨_, rfl, rfl, rfl⟩
      · rw [if_neg h3, if_neg h3]
        exact ⟨_, rfl, rfl, rfl⟩
    · rw [if_neg h2, if_neg h2]
      exact ⟨_, rfl, rfl, rfl⟩

/-- C5: for every endpoint of the `sensitive_endpoints` list probed by
`test_authorization` (whose loop body is `authzStep`), a response status in
{401, 403, 404} yields a PASS record and any 2xx status yields a FAIL
record. -/
theorem claim_C5_sensitive_endpoint_classification :
    ∀ endpoint ∈ sensitive_endpoints,
      ∀ (base_url : String) (get : String → Except String Response) (response : Response)
        (st : List Result), get (base_url ++ endpoint) = Except.ok response →
        ∃ rec, authzStep base_url get endpoint st = st ++ [rec] ∧
          (response.status_code ∈ [401, 403, 404] → rec.status = "PASS") ∧
          (200 ≤ response.status_code → response.status_code ≤ 299 →
            rec.status = "FAIL") := by
  intro endpoint _hmem base_url get response st hget
  unfold authzStep
  rw [hget]
  dsimp only
  by_cases h : response.status_code ∈ [401, 403, 404]
  · rw [if_pos h]
    refine ⟨_, rfl, fun _ => rfl, fun h200 h299 => ?_⟩
    have h' : response.status_code = 401 ∨ response.status_code = 403 ∨
        response.status_code = 404 := by simpa using h
    omega
  · rw [if_neg h]
    exact ⟨_, rfl, fun hin => absurd hin h, fun _ _ => rfl⟩

/-- Witness for C5: a mocked 200 on the sensitive path `/admin/users` yields a
FAIL record. -/
theorem claim_C5_witness :
    ∃ rec, authzStep "http://localhost:8080" (fun _ => Except.ok ⟨200, "", []⟩)
        "/admin/users" [] = [] ++ [rec] ∧ rec.status = "FAIL" := by
  obtain ⟨rec, h1, _h2, h3⟩ := claim_C5_sensitive_endpoint_classification
    "/admin/users" (by decide) "http://localhost:8080"
    (fun _ => Except.ok ⟨200, "", []⟩) ⟨200, "", []⟩ [] rfl
  exact ⟨rec, h1, h3 (by decide) (by decide)⟩

theorem headerStep_absent (response : Response) (entry : String × HeaderReq)
    (st : List Result) (hnone : response.getHeader entry.1 = none) :
    headerStep response entry st
      = st ++ [⟨"Security Header " ++ entry.1, "FAIL", "Header ausente", "FAIL"⟩] := by
  unfold headerStep
  rw [hnone]
  rfl

/-- C6: in `test_security_headers`, every required header absent from the
response yields a FAIL record; a response containing none of the required
headers yields five records, all FAIL; and a header that is present with a
non-matching value yields WARN, not FAIL. -/
theorem claim_C6_security_header_classification :
    (∀ (response : Response) (entry : String × HeaderReq) (st : List Result),
        entry ∈ required_headers → response.getHeader entry.1 = none →
        headerStep response entry st
          = st ++ [⟨"Security Header " ++ entry.1, "FAIL", "Header ausente", "FAIL"⟩]) ∧
    (∀ (response : Response) (st : List Result),
        (∀ entry ∈ required_headers, response.getHeader entry.1 = none) →
        test_security_headers (Except.ok response) st = st ++
          [⟨"Security Header X-Content-Type-Options", "FAIL", "Header ausente", "FAIL"⟩,
           ⟨"Security Header X-Frame-Options", "FAIL", "Header ausente", "FAIL"⟩,
           ⟨"Security Header X-XSS-Protection", "FAIL", "Header ausente", "FAIL"⟩,
           ⟨"Security Header Strict-Transport-Security", "FAIL", "Header ausente", "FAIL"⟩,
           ⟨"Security Header Content-Security-Policy", "FAIL", "Header ausente", "FAIL"⟩]) ∧
    (∀ (response : Response) (name : String) (req : HeaderReq) (st : List Result)
        (actual : String), (name, req) ∈ required_headers →
        response.getHeader name = some actual → headerMismatch req actual →
        ∃ rec, headerStep response (name, req) st = st ++ [rec] ∧ rec.status = "WARN") := by
  refine ⟨?_, ?_, ?_⟩
  · intro response entry st _hmem hnone
    exact headerStep_absent response entry st hnone
  · intro response st h
    have e1 : response.getHeader "X-Content-Type-Options" = none :=
      h ("X-Content-Type-Options", .value "nosniff") (by decide)
    have e2 : response.getHeader "X-Frame-Options" = none :=
      h ("X-Frame-Options", .oneOf ["DENY", "SAMEORIGIN"]) (by decide)
    have e3 : response.getHeader "X-XSS-Protection" = none :=
      h ("X-XSS-Protection", .value "1; mode=block") (by decide)
    have e4 : response.getHeader "Strict-Transport-Security" = none :=
      h ("Strict-Transport-Security", .present) (by decide)
    have e5 : response.getHeader "Content-Security-Policy" = none :=
      h ("Content-Security-Policy", .present) (by decide)
    show required_headers.foldl (fun acc entry => headerStep response entry acc) st = _
    simp only [required_headers, List.foldl_cons, List.foldl_nil]
    rw [headerStep_absent response ("X-Content-Type-Options", .value "nosniff") _ e1,
        headerStep_absent response ("X-Frame-Options", .oneOf ["DENY", "SAMEORIGIN"]) _ e2,
        headerStep_absent response ("X-XSS-Protection", .value "1; mode=block") _ e3,
        headerStep_absent response ("Strict-Transport-Security", .present) _ e4,
        headerStep_absent response ("Content-Security-Policy", .present) _ e5]
    simp [List.append_assoc]
  · intro response name req st actual _hmem hsome hmis
    unfold headerStep
    rw [hsome]
    cases req with
    | value v =>
        have hne : actual ≠ v := hmis
        dsimp only
        rw [if_neg hne]
        exact ⟨_, rfl, rfl⟩
    | oneOf vs =>
        have hni : actual ∉ vs := hmis
        dsimp only
        rw [if_neg hni]
        exact ⟨_, rfl, rfl⟩
    | present => exact hmis.elim

/-- Witness for C6: a response with no headers at all yields exactly five
records, all with status FAIL. -/
theorem claim_C6_witness :
    (test_security_headers (Except.ok ⟨200, "", []⟩) []).map (fun r => r.status)
      = ["FAIL", "FAIL", "FAIL", "FAIL", "FAIL"] := by
  have h := claim_C6_security_header_classification.2.1 ⟨200, "", []⟩ []
    (fun entry _ => rfl)
  rw [h]
  rfl

theorem collectResponses_ok (get : Nat → Except String Response)
    (resp : Nat → Response) :
    ∀ n, (∀ i, i < n → get i = Except.ok (resp i)) →
      collectResponses get n
        = Except.ok ((List.range n).map (fun i => (resp i).status_code)) := by
  intro n
  induction n with
  | zero => intro _; rfl
  | succ n ih =>
      intro h
      have hn := h n (by omega)
      simp only [collectResponses, ih (fun i hi => h i (by omega)), hn, List.range_succ,
        List.map_append, List.map_cons, List.map_nil]

/-- C7: `test_rate_limiting` issues exactly 50 sequential requests (indices
`0..49`, as `collectResponses get 50` shows) and appends exactly one record:
PASS when at least one of the 50 response statuses is 429 and WARN otherwise;
its status is never FAIL (it is always PASS or WARN). -/
theorem claim_C7_rate_limiting_single_record :
    ∀ (get : Nat → Except String Response) (resp : Nat → Response) (st : List Result),
      (∀ i, i < 50 → get i = Except.ok (resp i)) →
      collectResponses get 50
        = Except.ok ((List.range 50).map (fun i => (resp i).status_code)) ∧
      ∃ rec, test_rate_limiting get st = st ++ [rec] ∧
        (rec.status = "PASS" ↔ ∃ i, i < 50 ∧ (resp i).status_code = 429) ∧
        rec.status ≠ "FAIL" ∧ (rec.status = "PASS" ∨ rec.status = "WARN") := by
  intro get resp st h
  have hcoll := collectResponses_ok get resp 50 h
  refine ⟨hcoll, ?_⟩
  have hiff : (((List.range 50).map (fun i => (resp i).status_code)).any
      (fun status => status == 429)) = true
      ↔ ∃ i, i < 50 ∧ (resp i).status_code = 429 := by
    simp [List.any_eq_true, List.mem_map, List.mem_range]
  unfold test_rate_limiting
  rw [hcoll]
  dsimp only
  cases hb : (((List.range 50).map (fun i => (resp i).status_code)).any
      (fun status => status == 429)) with
  | true =>
      rw [if_pos rfl]
      refine ⟨_, rfl, ?_, by decide, Or.inl rfl⟩
      exact ⟨fun _ => hiff.1 hb, fun _ => rfl⟩
  | false =>
      rw [if_neg (by decide : ¬((false : Bool) = true))]
      refine ⟨_, rfl, ?_, by decide, Or.inr rfl⟩
      constructor
      · intro hw
        exact absurd hw (by decide)
      · intro hex
        rw [hiff.2 hex] at hb
        cases hb

/-- Witness for C7: with every one of the 50 responses a 429, the single
appended record has status PASS; the hypotheses are discharged at a concrete
environment. -/
theorem claim_C7_witness :
    ∃ rec, test_rate_limiting (fun _ => Except.ok ⟨429, "", []⟩) [] = [] ++ [rec]
      ∧ rec.status = "PASS" := by
  obtain ⟨_h1, rec, h2, h3, _h4⟩ := claim_C7_rate_limiting_single_record
    (fun _ => Except.ok ⟨429, "", []⟩) (fun _ => ⟨429, "", []⟩) [] (fun _ _ => rfl)
  exact ⟨rec, h2, h3.2 ⟨0, by omega, rfl⟩⟩

/-- Counterexample to C2 as stated: 303 is a 30x redirect status
(300 ≤ 303 < 400) and the response's Location header starts with
`https://`, yet `test_ssl_configuration` appends a FAIL record, not PASS —
the source only accepts 301, 302, 307 and 308. -/
theorem claim_C2_counterexample :
    300 ≤ 303 ∧ 303 < 400 ∧
    strStartsWith "https://example.com/x" "https://" = true ∧
    test_ssl_configuration "https://example.com"
        (fun _ => Except.ok ⟨303, "", [("Location", "https://example.com/x")]⟩) []
      = [⟨"HTTP to HTTPS Redirect", "FAIL", "Redirecionamento não configurado", "FAIL"⟩] :=
  ⟨by omega, by omega, rfl, rfl⟩

/-- C2 (amended): in the TLS check with an HTTPS base URL, a response whose
status is in {301, 302, 307, 308} and whose Location header starts with
`https://` yields a PASS record, and any other response yields a FAIL record
(`sslStatusSpec` states that classification); when the base URL is not HTTPS,
exactly one WARN record is appended and no request is performed (the result
does not depend on the network environment). -/
theorem claim_C2_tls_check_amended :
    (∀ (base_url : String) (get : String → Except String Response) (st : List Result),
        strStartsWith base_url "https://" = false →
        test_ssl_configuration base_url get st
          = st ++ [⟨"SSL Configuration", "WARN", "Aplicação não está usando HTTPS", "WARN"⟩]
        ∧ (∀ get2, test_ssl_configuration base_url get st
            = test_ssl_configuration base_url get2 st)) ∧
    (∀ (base_url : String) (get : String → Except String Response) (response : Response)
        (st : List Result),
        strStartsWith base_url "https://" = true →
        get (base_url.replace "https://" "http://") = Except.ok response →
        ∃ rec, test_ssl_configuration base_url get st = st ++ [rec] ∧
          rec.status = sslStatusSpec response ∧ rec.severity = sslStatusSpec response) := by
  constructor
  · intro base_url get st hfalse
    constructor
    · unfold test_ssl_configuration
      rw [hfalse]
      rfl
    · intro get2
      unfold test_ssl_configuration
      rw [hfalse]
      rfl
  · intro base_url get response st htrue hget
    unfold test_ssl_configuration sslStatusSpec
    rw [htrue, if_neg (by decide : ¬((!true) = true))]
    dsimp only
    rw [hget]
    dsimp only
    by_cases hmem : response.status_code ∈ [301, 302, 307, 308]
    · rw [if_pos hmem]
      by_cases hloc : strStartsWith ((response.getHeader "Location").getD "") "https://" = true
      · rw [if_pos hloc, if_pos ⟨hmem, hloc⟩]
        exact ⟨_, rfl, rfl, rfl⟩
      · rw [if_neg hloc, if_neg (fun hc => hloc hc.2)]
        exact ⟨_, rfl, rfl, rfl⟩
    · rw [if_neg hmem, if_neg (fun hc => hmem hc.1)]
      exact ⟨_, rfl, rfl, rfl⟩

/-- Witness for C2 (amended) at concrete inputs: a non-HTTPS base URL appends
the single WARN record, and a 301 redirect to HTTPS yields a PASS record. -/
theorem claim_C2_witness :
    test_ssl_configuration "http://localhost:8080" (fun _ => Except.ok ⟨200, "", []⟩) []
      = [] ++ [⟨"SSL Configuration", "WARN", "Aplicação não está usando HTTPS", "WARN"⟩] ∧
    (∃ rec, test_ssl_configuration "https://example.com"
        (fun _ => Except.ok ⟨301, "", [("Location", "https://example.com/")]⟩) []
        = [] ++ [rec] ∧ rec.status = "PASS") := by
  constructor
  · exact (claim_C2_tls_check_amended.1 "http://localhost:8080"
      (fun _ => Except.ok ⟨200, "", []⟩) [] (by decide)).1
  · obtain ⟨rec, h1, h2, _h3⟩ := claim_C2_tls_check_amended.2 "https://example.com"
      (fun _ => Except.ok ⟨301, "", [("Location", "https://example.com/")]⟩)
      ⟨301, "", [("Location", "https://example.com/")]⟩ [] (by decide) rfl
    exact ⟨rec, h1, h2.trans (by rfl)⟩

/-- Counterexample to C3 as stated: when construction of the synthetic
expired token fails (`generate_expired_token` returns `None`, since it
swallows its own exceptions), the expired-token step appends no record at
all — in particular no WARN record. -/
theorem claim_C3_counterexample :
    expiredTokenStep none (fun _ => Except.error "unreachable") [] = [] := rfl

/-- C3 (amended): in the expired-token step of `test_authentication`, a
construction failure (`None` from `generate_expired_token`) appends no record
and the run continues; when construction succeeds (a truthy token string), a
401 response yields a PASS record and any other status a FAIL record, and a
request exception is reported as a WARN record. -/
theorem claim_C3_expired_token_step_amended :
    (∀ (get : String → Except String Response) (st : List Result),
        expiredTokenStep none get st = st) ∧
    (∀ (token : String) (get : String → Except String Response) (response : Response)
        (st : List Result),
        pyTruthy (some token) = true → get token = Except.ok response →
        ∃ rec, expiredTokenStep (some token) get st = st ++ [rec] ∧
          (response.status_code = 401 → rec.status = "PASS" ∧ rec.severity = "PASS") ∧
          (response.status_code ≠ 401 → rec.status = "FAIL" ∧ rec.severity = "FAIL")) ∧
    (∀ (token : String) (get : String → Except String Response) (e : String)
        (st : List Result),
        pyTruthy (some token) = true → get token = Except.error e →
        expiredTokenStep (some token) get st
          = st ++ [⟨"Expired Token", "WARN", "Não foi possível testar: " ++ e, "WARN"⟩]) := by
  refine ⟨fun _ _ => rfl, ?_, ?_⟩
  · intro token get response st htr hget
    unfold expiredTokenStep
    dsimp only
    rw [if_pos htr, hget]
    dsimp only
    by_cases hs : response.status_code = 401
    · rw [if_pos hs]
      exact ⟨_, rfl, fun _ => ⟨rfl, rfl⟩, fun hne => absurd hs hne⟩
    · rw [if_neg hs]
      exact ⟨_, rfl, fun h => absurd h hs, fun _ => ⟨rfl, rfl⟩⟩
  · intro token get e st htr hget
    unfold expiredTokenStep
    dsimp only
    rw [if_pos htr, hget]
    rfl

/-- Witness for C3 (amended) at concrete inputs: a 401 to the expired token
yields PASS, and a request exception yields the WARN record. -/
theorem claim_C3_witness :
    (∃ rec, expiredTokenStep (some "tok") (fun _ => Except.ok ⟨401, "", []⟩) []
        = [] ++ [rec] ∧ rec.status = "PASS") ∧
    expiredTokenStep (some "tok") (fun _ => Except.error "timeout") []
      = [] ++ [⟨"Expired Token", "WARN", "Não foi possível testar: timeout", "WARN"⟩] := by
  constructor
  · obtain ⟨rec, h1, h2, _h3⟩ := claim_C3_expired_token_step_amended.2.1 "tok"
      (fun _ => Except.ok ⟨401, "", []⟩) ⟨401, "", []⟩ [] (by decide) rfl
    exact ⟨rec, h1, (h2 rfl).1⟩
  · exact claim_C3_expired_token_step_amended.2.2 "tok"
      (fun _ => Except.error "timeout") "timeout" [] (by decide) rfl

theorem emitsOnly_all {P : Result → Prop} {f : List Result → List Result}
    (hf : EmitsOnly P f) (st : List Result) (hst : ∀ r ∈ st, P r) :
    ∀ r ∈ f st, P r :=
  fun r hr => (hf st r hr).elim (hst r) id

theorem errWarn_of_ne {n s d sev : String} (h : s ≠ "ERROR") :
    errorSeverityWarn ⟨n, s, d, sev⟩ :=
  fun hs => absurd hs h

theorem authWithoutTokenStep_errWarn (resp : Except String Response) :
    EmitsOnly errorSeverityWarn (authWithoutTokenStep resp) := by
  intro st r
  unfold authWithoutTokenStep
  cases resp with
  | ok response =>
      dsimp only
      split
      · exact emitsOnly_log _ _ _ _ (errWarn_of_ne (by decide)) st r
      · exact emitsOnly_log _ _ _ _ (errWarn_of_ne (by decide)) st r
  | error e => exact emitsOnly_log _ _ _ _ (fun _ => rfl) st r

theorem malformedStep_errWarn (get : String → Except String Response) (token : String) :
    EmitsOnly errorSeverityWarn (malformedStep get token) := by
  intro st r
  unfold malformedStep
  cases get token with
  | ok response =>
      dsimp only
      split
      · exact emitsOnly_log _ _ _ _ (errWarn_of_ne (by decide)) st r
      · exact emitsOnly_log _ _ _ _ (errWarn_of_ne (by decide)) st r
  | error e => exact emitsOnly_log _ _ _ _ (fun _ => rfl) st r

theorem expiredTokenStep_errWarn (tokenOpt : Option String)
    (get : String → Except String Response) :
    EmitsOnly errorSeverityWarn (expiredTokenStep tokenOpt get) := by
  intro st r
  unfold expiredTokenStep
  cases tokenOpt with
  | none => exact fun h => Or.inl h
  | some t =>
      dsimp only
      split
      · cases get t with
        | ok response =>
            dsimp only
            split
            · exact emitsOnly_log _ _ _ _ (errWarn_of_ne (by decide)) st r
            · exact emitsOnly_log _ _ _ _ (errWarn_of_ne (by decide)) st r
        | error e => exact emitsOnly_log _ _ _ _ (errWarn_of_ne (by decide)) st r
      · exact fun h => Or.inl h

theorem test_authentication_errWarn (noTokenReq : Except String Response)
    (tokenReq expiredReq : String → Except String Response) (now : Nat) :
    EmitsOnly errorSeverityWarn (test_authentication noTokenReq tokenReq expiredReq now) := by
  intro st r hr
  have hr2 : r ∈ expiredTokenStep (generate_expired_token now) expiredReq
      (List.foldl (fun acc t => malformedStep tokenReq t acc)
        (authWithoutTokenStep noTokenReq st) malformed_tokens) := hr
  rcases expiredTokenStep_errWarn (generate_expired_token now) expiredReq _ r hr2 with h1 | h2
  · rcases emitsOnly_foldl _ (fun t => malformedStep_errWarn tokenReq t) malformed_tokens
      (authWithoutTokenStep noTokenReq st) r h1 with h3 | h4
    · exact authWithoutTokenStep_errWarn noTokenReq st r h3
    · exact Or.inr h4
  · exact Or.inr h2

theorem authzStep_errWarn (base_url : String) (get : String → Except String Response)
    (endpoint : String) : EmitsOnly errorSeverityWarn (authzStep base_url get endpoint) := by
  intro st r
  unfold authzStep
  cases get (base_url ++ endpoint) with
  | ok response =>
      dsimp only
      split
      · exact emitsOnly_log _ _ _ _ (errWarn_of_ne (by decide)) st r
      · exact emitsOnly_log _ _ _ _ (errWarn_of_ne (by decide)) st r
  | error e => exact emitsOnly_log _ _ _ _ (fun _ => rfl) st r

theorem test_authorization_errWarn (base_url : String)
    (get : String → Except String Response) :
    EmitsOnly errorSeverityWarn (test_authorization base_url get) :=
  emitsOnly_foldl _ (fun ep => authzStep_errWarn base_url get ep) sensitive_endpoints

theorem test_injection_payload_errWarn (attack_type payload : String)
    (resp : Except String Response) :
    EmitsOnly errorSeverityWarn (test_injection_payload attack_type payload resp) := by
  intro st r
  unfold test_injection_payload
  cases resp with
  | ok response =>
      dsimp only
      split
      · exact emitsOnly_log _ _ _ _ (errWarn_of_ne (by decide)) st r
      · split
        · split
          · exact emitsOnly_log _ _ _ _ (errWarn_of_ne (by decide)) st r
          · exact emitsOnly_log _ _ _ _ (errWarn_of_ne (by decide)) st r
        · exact emitsOnly_log _ _ _ _ (errWarn_of_ne (by decide)) st r
  | error e => exact emitsOnly_log _ _ _ _ (fun _ => rfl) st r

theorem test_injection_attacks_errWarn (post : String → Except String Response) :
    EmitsOnly errorSeverityWarn (test_injection_attacks post) := by
  intro st r hr
  have hr2 : r ∈ List.foldl
      (fun acc p => test_injection_payload "Command Injection" p (post p) acc)
      (List.foldl (fun acc p => test_injection_payload "XSS" p (post p) acc)
        (List.foldl (fun acc p => test_injection_payload "SQL Injection" p (post p) acc)
          st sql_payloads) xss_payloads) cmd_payloads := hr
  rcases emitsOnly_foldl _
      (fun p => test_injection_payload_errWarn "Command Injection" p (post p))
      cmd_payloads _ r hr2 with h1 | h2
  · rcases emitsOnly_foldl _ (fun p => test_injection_payload_errWarn "XSS" p (post p))
        xss_payloads _ r h1 with h3 | h4
    · rcases emitsOnly_foldl _
          (fun p => test_injection_payload_errWarn "SQL Injection" p (post p))
          sql_payloads st r h3 with h5 | h6
      · exact Or.inl h5
      · exact Or.inr h6
    · exact Or.inr h4
  · exact Or.inr h2

theorem headerStep_errWarn (response : Response) (entry : String × HeaderReq) :
    EmitsOnly errorSeverityWarn (headerStep response entry) := by
  intro st r
  unfold headerStep
  cases response.getHeader entry.1 with
  | some actual =>
      cases entry.2 with
      | value v =>
          dsimp only
          split
          · exact emitsOnly_log _ _ _ _ (errWarn_of_ne (by decide)) st r
          · exact emitsOnly_log _ _ _ _ (errWarn_of_ne (by decide)) st r
      | oneOf vs =>
          dsimp only
          split
          · exact emitsOnly_log _ _ _ _ (errWarn_of_ne (by decide)) st r
          · exact emitsOnly_log _ _ _ _ (errWarn_of_ne (by decide)) st r
      | present => exact emitsOnly_log _ _ _ _ (errWarn_of_ne (by decide)) st r
  | none => exact emitsOnly_log _ _ _ _ (errWarn_of_ne (by decide)) st r

theorem test_security_headers_errWarn (statusReq : Except String Response) :
    EmitsOnly errorSeverityWarn (test_security_headers statusReq) := by
  intro st r
  unfold test_security_headers
  cases statusReq with
  | ok response =>
      exact emitsOnly_foldl _ (fun entry => headerStep_errWarn response entry)
        required_headers st r
  | error e => exact emitsOnly_log _ _ _ _ (fun _ => rfl) st r

theorem test_rate_limiting_errWarn (get : Nat → Except String Response) :
    EmitsOnly errorSeverityWarn (test_rate_limiting get) := by
  intro st r
  unfold test_rate_limiting
  cases collectResponses get 50 with
  | ok responses =>
      dsimp only
      split
      · exact emitsOnly_log _ _ _ _ (errWarn_of_ne (by decide)) st r
      · exact emitsOnly_log _ _ _ _ (errWarn_of_ne (by decide)) st r
  | error e => exact emitsOnly_log _ _ _ _ (fun _ => rfl) st r

theorem infoStep_errWarn (base_url : String) (get : String → Except String Response)
    (endpoint : String) : EmitsOnly errorSeverityWarn (infoStep base_url get endpoint) := by
  intro st r
  unfold infoStep
  cases get (base_url ++ endpoint) with
  | ok response =>
      dsimp only
      split
      · split
        · exact emitsOnly_log _ _ _ _ (errWarn_of_ne (by decide)) st r
        · exact emitsOnly_log _ _ _ _ (errWarn_of_ne (by decide)) st r
      · exact emitsOnly_log _ _ _ _ (errWarn_of_ne (by decide)) st r
  | error e => exact emitsOnly_log _ _ _ _ (fun _ => rfl) st r

theorem test_information_disclosure_errWarn (base_url : String)
    (get : String → Except String Response) :
    EmitsOnly errorSeverityWarn (test_information_disclosure base_url get) :=
  emitsOnly_foldl _ (fun ep => infoStep_errWarn base_url get ep) info_endpoints

theorem corsLoop_errWarn (options : String → Except String Response)
    (origins : List String) : EmitsOnly errorSeverityWarn (corsLoop options origins) := by
  induction origins with
  | nil => exact emitsOnly_self
  | cons origin rest ih =>
      intro st r
      simp only [corsLoop]
      cases options origin with
      | ok response =>
          dsimp only
          split
          · intro hr
            rcases ih _ r hr with h1 | h2
            · exact emitsOnly_log _ _ _ _ (errWarn_of_ne (by decide)) st r h1
            · exact Or.inr h2
          · intro hr
            rcases ih _ r hr with h1 | h2
            · exact emitsOnly_log _ _ _ _ (errWarn_of_ne (by decide)) st r h1
            · exact Or.inr h2
      | error e => exact emitsOnly_log _ _ _ _ (fun _ => rfl) st r

theorem test_cors_configuration_errWarn (options : String → Except String Response) :
    EmitsOnly errorSeverityWarn (test_cors_configuration options) :=
  corsLoop_errWarn options malicious_origins

theorem test_ssl_configuration_errWarn (base_url : String)
    (get : String → Except String Response) :
    EmitsOnly errorSeverityWarn (test_ssl_configuration base_url get) := by
  intro st r
  unfold test_ssl_configuration
  split
  · exact emitsOnly_log _ _ _ _ (errWarn_of_ne (by decide)) st r
  · dsimp only
    cases get (base_url.replace "https://" "http://") with
    | ok response =>
        dsimp only
        split
        · split
          · exact emitsOnly_log _ _ _ _ (errWarn_of_ne (by decide)) st r
          · exact emitsOnly_log _ _ _ _ (errWarn_of_ne (by decide)) st r
        · exact emitsOnly_log _ _ _ _ (errWarn_of_ne (by decide)) st r
    | error e => exact emitsOnly_log _ _ _ _ (fun _ => rfl) st r

theorem notFail_of_ne {n s d sev : String} (h : s ≠ "FAIL") :
    notFail ⟨n, s, d, sev⟩ := h

theorem authWithoutTokenStep_noFail_err (resp : Except String Response)
    (herr : isErr resp) : EmitsOnly notFail (authWithoutTokenStep resp) := by
  obtain ⟨e, he⟩ := herr
  subst he
  intro st r
  unfold authWithoutTokenStep
  exact emitsOnly_log _ _ _ _ (notFail_of_ne (by decide)) st r

theorem malformedStep_noFail_err (get : String → Except String Response) (token : String)
    (herr : ∀ t, isErr (get t)) : EmitsOnly notFail (malformedStep get token) := by
  obtain ⟨e, he⟩ := herr token
  intro st r
  unfold malformedStep
  rw [he]
  exact emitsOnly_log _ _ _ _ (notFail_of_ne (by decide)) st r

theorem expiredTokenStep_noFail_err (tokenOpt : Option String)
    (get : String → Except String Response) (herr : ∀ t, isErr (get t)) :
    EmitsOnly notFail (expiredTokenStep tokenOpt get) := by
  intro st r
  unfold expiredTokenStep
  cases tokenOpt with
  | none => exact fun h => Or.inl h
  | some t =>
      dsimp only
      obtain ⟨e, he⟩ := herr t
      rw [he]
      split
      · exact emitsOnly_log _ _ _ _ (notFail_of_ne (by decide)) st r
      · exact fun h => Or.inl h

theorem test_authentication_noFail_err (noTokenReq : Except String Response)
    (tokenReq expiredReq : String → Except String Response) (now : Nat)
    (h1 : isErr noTokenReq) (h2 : ∀ t, isErr (tokenReq t))
    (h3 : ∀ t, isErr (expiredReq t)) :
    EmitsOnly notFail (test_authentication noTokenReq tokenReq expiredReq now) := by
  intro st r hr
  have hr2 : r ∈ expiredTokenStep (generate_expired_token now) expiredReq
      (List.foldl (fun acc t => malformedStep tokenReq t acc)
        (authWithoutTokenStep noTokenReq st) malformed_tokens) := hr
  rcases expiredTokenStep_noFail_err (generate_expired_token now) expiredReq h3 _ r hr2
    with ha | hb
  · rcases emitsOnly_foldl _ (fun t => malformedStep_noFail_err tokenReq t h2)
        malformed_tokens (authWithoutTokenStep noTokenReq st) r ha with hc | hd
    · exact authWithoutTokenStep_noFail_err noTokenReq h1 st r hc
    · exact Or.inr hd
  · exact Or.inr hb

theorem authzStep_noFail_err (base_url : String) (get : String → Except String Response)
    (endpoint : String) (herr : ∀ u, isErr (get u)) :
    EmitsOnly notFail (authzStep base_url get endpoint) := by
  obtain ⟨e, he⟩ := herr (base_url ++ endpoint)
  intro st r
  unfold authzStep
  rw [he]
  exact emitsOnly_log _ _ _ _ (notFail_of_ne (by decide)) st r

theorem test_authorization_noFail_err (base_url : String)
    (get : String → Except String Response) (herr : ∀ u, isErr (get u)) :
    EmitsOnly notFail (test_authorization base_url get) :=
  emitsOnly_foldl _ (fun ep => authzStep_noFail_err base_url get ep herr)
    sensitive_endpoints

theorem test_injection_payload_noFail_err (attack_type payload : String)
    (resp : Except String Response) (herr : isErr resp) :
    EmitsOnly notFail (test_injection_payload attack_type payload resp) := by
  obtain ⟨e, he⟩ := herr
  subst he
  intro st r
  unfold test_injection_payload
  exact emitsOnly_log _ _ _ _ (notFail_of_ne (by decide)) st r

theorem test_injection_attacks_noFail_err (post : String → Except String Response)
    (herr : ∀ p, isErr (post p)) :
    EmitsOnly notFail (test_injection_attacks post) := by
  intro st r hr
  have hr2 : r ∈ List.foldl
      (fun acc p => test_injection_payload "Command Injection" p (post p) acc)
      (List.foldl (fun acc p => test_injection_payload "XSS" p (post p) acc)
        (List.foldl (fun acc p => test_injection_payload "SQL Injection" p (post p) acc)
          st sql_payloads) xss_payloads) cmd_payloads := hr
  rcases emitsOnly_foldl _
      (fun p => test_injection_payload_noFail_err "Command Injection" p (post p) (herr p))
      cmd_payloads _ r hr2 with h1 | h2
  · rcases emitsOnly_foldl _
        (fun p => test_injection_payload_noFail_err "XSS" p (post p) (herr p))
        xss_payloads _ r h1 with h3 | h4
    · rcases emitsOnly_foldl _
          (fun p => test_injection_payload_noFail_err "SQL Injection" p (post p) (herr p))
          sql_payloads st r h3 with h5 | h6
      · exact Or.inl h5
      · exact Or.inr h6
    · exact Or.inr h4
  · exact Or.inr h2

theorem test_security_headers_noFail_err (statusReq : Except String Response)
    (herr : isErr statusReq) : EmitsOnly notFail (test_security_headers statusReq) := by
  obtain ⟨e, he⟩ := herr
  subst he
  intro st r
  unfold test_security_headers
  exact emitsOnly_log _ _ _ _ (notFail_of_ne (by decide)) st r

theorem collectResponses_err (get : Nat → Except String Response)
    (herr : ∀ i, isErr (get i)) :
    ∀ n, 1 ≤ n → ∃ e, collectResponses get n = Except.error e := by
  intro n
  induction n with
  | zero => intro h; omega
  | succ m ih =>
      intro _
      cases m with
      | zero =>
          obtain ⟨e, he⟩ := herr 0
          exact ⟨e, by simp only [collectResponses, he]⟩
      | succ k =>
          obtain ⟨e, he⟩ := ih (by omega)
          refine ⟨e, ?_⟩
          rw [collectResponses, he]

theorem test_rate_limiting_noFail_err (get : Nat → Except String Response)
    (herr : ∀ i, isErr (get i)) : EmitsOnly notFail (test_rate_limiting get) := by
  obtain ⟨e, he⟩ := collectResponses_err get herr 50 (by omega)
  intro st r
  unfold test_rate_limiting
  rw [he]
  exact emitsOnly_log _ _ _ _ (notFail_of_ne (by decide)) st r

theorem infoStep_noFail_err (base_url : String) (get : String → Except String Response)
    (endpoint : String) (herr : ∀ u, isErr (get u)) :
    EmitsOnly notFail (infoStep base_url get endpoint) := by
  obtain ⟨e, he⟩ := herr (base_url ++ endpoint)
  intro st r
  unfold infoStep
  rw [he]
  exact emitsOnly_log _ _ _ _ (notFail_of_ne (by decide)) st r

theorem test_information_disclosure_noFail_err (base_url : String)
    (get : String → Except String Response) (herr : ∀ u, isErr (get u)) :
    EmitsOnly notFail (test_information_disclosure base_url get) :=
  emitsOnly_foldl _ (fun ep => infoStep_noFail_err base_url get ep herr) info_endpoints

theorem corsLoop_noFail_err (options : String → Except String Response)
    (origins : List String) (herr : ∀ o, isErr (options o)) :
    EmitsOnly notFail (corsLoop options origins) := by
  cases origins with
  | nil => exact emitsOnly_self
  | cons origin rest =>
      obtain ⟨e, he⟩ := herr origin
      intro st r
      simp only [corsLoop]
      rw [he]
      exact emitsOnly_log _ _ _ _ (notFail_of_ne (by decide)) st r

theorem test_cors_configuration_noFail_err (options : String → Except String Response)
    (herr : ∀ o, isErr (options o)) :
    EmitsOnly notFail (test_cors_configuration options) :=
  corsLoop_noFail_err options malicious_origins herr

theorem test_ssl_configuration_noFail_err (base_url : String)
    (get : String → Except String Response) (herr : ∀ u, isErr (get u)) :
    EmitsOnly notFail (test_ssl_configuration base_url get) := by
  intro st r
  unfold test_ssl_configuration
  split
  · exact emitsOnly_log _ _ _ _ (notFail_of_ne (by decide)) st r
  · dsimp only
    obtain ⟨e, he⟩ := herr (base_url.replace "https://" "http://")
    rw [he]
    exact emitsOnly_log _ _ _ _ (notFail_of_ne (by decide)) st r

theorem run_all_checks_noFail (base_url : String) (env : RunEnv) (now : Nat)
    (herr : allErrors env) :
    ∀ r ∈ run_all_checks base_url env now, notFail r := by
  obtain ⟨e1, e2, e3, e4, e5, e6, e7, e8, e9, e10⟩ := herr
  unfold run_all_checks
  dsimp only
  refine emitsOnly_all (test_ssl_configuration_noFail_err base_url env.sslGet e10) _ ?_
  refine emitsOnly_all (test_cors_configuration_noFail_err env.corsOptions e9) _ ?_
  refine emitsOnly_all (test_information_disclosure_noFail_err base_url env.infoGet e8) _ ?_
  refine emitsOnly_all (test_rate_limiting_noFail_err env.rateGet e7) _ ?_
  refine emitsOnly_all (test_security_headers_noFail_err env.headersGet e6) _ ?_
  refine emitsOnly_all (test_injection_attacks_noFail_err env.injectionPost e5) _ ?_
  refine emitsOnly_all (test_authorization_noFail_err base_url env.authzGet e4) _ ?_
  refine emitsOnly_all
    (test_authentication_noFail_err env.authNoToken env.authMalformed env.authExpired now
      e1 e2 e3) _ ?_
  intro r hr
  cases hr

/-- C10: every record any check appends with status ERROR (the per-check
exception handlers) carries severity WARN (`errorSeverityWarn`), never FAIL;
consequently, in a run where every request raises a transport/network error
(`allErrors`), `generate_report` still returns true and the process exit code
is 0. -/
theorem claim_C10_error_records_never_fail :
    (∀ noTokenReq tokenReq expiredReq now st r,
        r ∈ test_authentication noTokenReq tokenReq expiredReq now st →
        r ∈ st ∨ errorSeverityWarn r) ∧
    (∀ base_url get st r, r ∈ test_authorization base_url get st →
        r ∈ st ∨ errorSeverityWarn r) ∧
    (∀ post st r, r ∈ test_injection_attacks post st → r ∈ st ∨ errorSeverityWarn r) ∧
    (∀ statusReq st r, r ∈ test_security_headers statusReq st →
        r ∈ st ∨ errorSeverityWarn r) ∧
    (∀ get st r, r ∈ test_rate_limiting get st → r ∈ st ∨ errorSeverityWarn r) ∧
    (∀ base_url get st r, r ∈ test_information_disclosure base_url get st →
        r ∈ st ∨ errorSeverityWarn r) ∧
    (∀ options st r, r ∈ test_cors_configuration options st →
        r ∈ st ∨ errorSeverityWarn r) ∧
    (∀ base_url get st r, r ∈ test_ssl_configuration base_url get st →
        r ∈ st ∨ errorSeverityWarn r) ∧
    (∀ base_url env now, allErrors env →
        run_all_tests base_url env now = true ∧ main_exit base_url env now = 0) :=
  ⟨fun noTokenReq tokenReq expiredReq now st r hr =>
     test_authentication_errWarn noTokenReq tokenReq expiredReq now st r hr,
   fun base_url get st r hr => test_authorization_errWarn base_url get st r hr,
   fun post st r hr => test_injection_attacks_errWarn post st r hr,
   fun statusReq st r hr => test_security_headers_errWarn statusReq st r hr,
   fun get st r hr => test_rate_limiting_errWarn get st r hr,
   fun base_url get st r hr => test_information_disclosure_errWarn base_url get st r hr,
   fun options st r hr => test_cors_configuration_errWarn options st r hr,
   fun base_url get st r hr => test_ssl_configuration_errWarn base_url get st r hr,
   fun base_url env now herr => by
     have hrep : generate_report (run_all_checks base_url env now) = true :=
       (generate_report_eq_true _).2 (run_all_checks_noFail base_url env now herr)
     refine ⟨hrep, ?_⟩
     show (if run_all_tests base_url env now then 0 else 1) = 0
     rw [show run_all_tests base_url env now = true from hrep]
     rfl⟩

/-- Witness for C10 at a concrete environment in which every request raises:
the report is still true and the exit code 0; and a concrete appended
ERROR-status record has severity WARN. -/
theorem claim_C10_witness :
    (run_all_tests "http://localhost:8080" (errEnv "connection refused") 1700000000 = true ∧
      main_exit "http://localhost:8080" (errEnv "connection refused") 1700000000 = 0) ∧
    (⟨"Rate Limiting Test", "ERROR", "connection refused", "WARN"⟩ : Result).severity
      = "WARN" := by
  constructor
  · exact claim_C10_error_records_never_fail.2.2.2.2.2.2.2.2 "http://localhost:8080"
      (errEnv "connection refused") 1700000000
      ⟨⟨_, rfl⟩, fun _ => ⟨_, rfl⟩, fun _ => ⟨_, rfl⟩, fun _ => ⟨_, rfl⟩,
       fun _ => ⟨_, rfl⟩, ⟨_, rfl⟩, fun _ => ⟨_, rfl⟩, fun _ => ⟨_, rfl⟩,
       fun _ => ⟨_, rfl⟩, fun _ => ⟨_, rfl⟩⟩
  · have hmem : (⟨"Rate Limiting Test", "ERROR", "connection refused", "WARN"⟩ : Result)
        ∈ test_rate_limiting (fun _ => Except.error "connection refused") [] := by
      rw [show test_rate_limiting (fun _ => Except.error "connection refused") []
          = [⟨"Rate Limiting Test", "ERROR", "connection refused", "WARN"⟩] from rfl]
      exact List.mem_singleton.2 rfl
    rcases claim_C10_error_records_never_fail.2.2.2.2.1
        (fun _ => Except.error "connection refused") [] _ hmem with h | h
    · cases h
    · exact h rfl

theorem b64Val_b64Char : ∀ n, n < 64 → b64Val (b64Char n) = some n := by decide

theorem b64Char_ne_dot (n : Nat) : b64Char n ≠ '.' := by
  have hm : n % 64 < 64 := Nat.mod_lt _ (by omega)
  have hall : ∀ i, i < 64 → b64Str.data.getD i 'A' ≠ '.' := by decide
  show b64Str.data.getD (n % 64) 'A' ≠ '.'
  exact hall (n % 64) hm

theorem encode_chars : ∀ (bs : List Nat) (c : Char),
    c ∈ base64urlEncode bs → ∃ m, c = b64Char m
  | [], c => by simp [base64urlEncode]
  | [b1], c => by
      intro h
      simp only [base64urlEncode, List.mem_cons, List.not_mem_nil, or_false] at h
      rcases h with h | h
      · exact ⟨_, h⟩
      · exact ⟨_, h⟩
  | [b1, b2], c => by
      intro h
      simp only [base64urlEncode, List.mem_cons, List.not_mem_nil, or_false] at h
      rcases h with h | h | h
      · exact ⟨_, h⟩
      · exact ⟨_, h⟩
      · exact ⟨_, h⟩
  | b1 :: b2 :: b3 :: rest, c => by
      intro h
      simp only [base64urlEncode, List.mem_cons] at h
      rcases h with h | h | h | h | h
      · exact ⟨_, h⟩
      · exact ⟨_, h⟩
      · exact ⟨_, h⟩
      · exact ⟨_, h⟩
      · exact encode_chars rest c h

theorem encode_no_dot (bs : List Nat) : '.' ∉ base64urlEncode bs := by
  intro h
  obtain ⟨m, hm⟩ := encode_chars bs '.' h
  exact b64Char_ne_dot m hm.symm

theorem decode_encode : ∀ (bs : List Nat), (∀ b ∈ bs, b < 256) →
    base64urlDecode (base64urlEncode bs) = some bs
  | [], _ => rfl
  | [b1], h => by
      have hb1 : b1 < 256 := h b1 (by simp)
      have h1 : b64Val (b64Char (b1 / 4)) = some (b1 / 4) := b64Val_b64Char _ (by omega)
      have h2 : b64Val (b64Char (b1 % 4 * 16)) = some (b1 % 4 * 16) :=
        b64Val_b64Char _ (by omega)
      simp only [base64urlEncode, base64urlDecode, h1, h2]
      have he : b1 / 4 * 4 + b1 % 4 * 16 / 16 = b1 := by omega
      rw [he]
  | [b1, b2], h => by
      have hb1 : b1 < 256 := h b1 (by simp)
      have hb2 : b2 < 256 := h b2 (by simp)
      have h1 : b64Val (b64Char (b1 / 4)) = some (b1 / 4) := b64Val_b64Char _ (by omega)
      have h2 : b64Val (b64Char (b1 % 4 * 16 + b2 / 16)) = some (b1 % 4 * 16 + b2 / 16) :=
        b64Val_b64Char _ (by omega)
      have h3 : b64Val (b64Char (b2 % 16 * 4)) = some (b2 % 16 * 4) :=
        b64Val_b64Char _ (by omega)
      simp only [base64urlEncode, base64urlDecode, h1, h2, h3]
      have he1 : b1 / 4 * 4 + (b1 % 4 * 16 + b2 / 16) / 16 = b1 := by omega
      have he2 : (b1 % 4 * 16 + b2 / 16) % 16 * 16 + b2 % 16 * 4 / 4 = b2 := by omega
      rw [he1, he2]
  | b1 :: b2 :: b3 :: rest, h => by
      have hb1 : b1 < 256 := h b1 (by simp)
      have hb2 : b2 < 256 := h b2 (by simp)
      have hb3 : b3 < 256 := h b3 (by simp)
      have hrest := decode_encode rest (fun b hb => h b (by simp [hb]))
      have h1 : b64Val (b64Char (b1 / 4)) = some (b1 / 4) := b64Val_b64Char _ (by omega)
      have h2 : b64Val (b64Char (b1 % 4 * 16 + b2 / 16)) = some (b1 % 4 * 16 + b2 / 16) :=
        b64Val_b64Char _ (by omega)
      have h3 : b64Val (b64Char (b2 % 16 * 4 + b3 / 64)) = some (b2 % 16 * 4 + b3 / 64) :=
        b64Val_b64Char _ (by omega)
      have h4 : b64Val (b64Char (b3 % 64)) = some (b3 % 64) := b64Val_b64Char _ (by omega)
      simp only [base64urlEncode, base64urlDecode, h1, h2, h3, h4, hrest]
      have he1 : b1 / 4 * 4 + (b1 % 4 * 16 + b2 / 16) / 16 = b1 := by omega
      have he2 : (b1 % 4 * 16 + b2 / 16) % 16 * 16 + (b2 % 16 * 4 + b3 / 64) / 4 = b2 := by
        omega
      have he3 : (b2 % 16 * 4 + b3 / 64) % 4 * 64 + b3 % 64 = b3 := by omega
      rw [he1, he2, he3]

theorem digitChar_lt (n : Nat) : (digitChar n).toNat < 256 := by
  unfold digitChar
  split <;> decide

theorem natReprAux_lt (n : Nat) : ∀ acc, (∀ c ∈ acc, c.toNat < 256) →
    ∀ c ∈ natReprAux n acc, c.toNat < 256 := by
  induction n using Nat.strong_induction_on with
  | _ n ih =>
      intro acc hacc c hc
      rw [natReprAux] at hc
      split at hc
      · rcases List.mem_cons.1 hc with rfl | hmem
        · exact digitChar_lt n
        · exact hacc c hmem
      · refine ih (n / 10) (Nat.div_lt_self (by omega) (by omega)) _ ?_ c hc
        intro c' hc'
        rcases List.mem_cons.1 hc' with rfl | hmem
        · exact digitChar_lt _
        · exact hacc c' hmem

theorem natRepr_lt (n : Nat) : ∀ c ∈ (natRepr n).data, c.toNat < 256 := by
  intro c hc
  exact natReprAux_lt n [] (by simp) c hc

theorem payload_json_lt (now : Nat) : ∀ b ∈ strBytes (payload_json now), b < 256 := by
  intro b hb
  obtain ⟨c, hc, rfl⟩ := List.mem_map.1 hb
  have hsplit : (payload_json now).data
      = "\x7b\"sub\": \"test-user\", \"iss\": \"http://localhost:8081/realms/eagle-dev\", \"exp\": ".data
        ++ (natRepr (payload_exp now)).data ++ ", \"iat\": ".data
        ++ (natRepr (payload_iat now)).data ++ "\x7d".data := by
    unfold payload_json
    rw [String.data_append, String.data_append, String.data_append, String.data_append]
  rw [hsplit] at hc
  have hlit1 : ∀ x ∈ "\x7b\"sub\": \"test-user\", \"iss\": \"http://localhost:8081/realms/eagle-dev\", \"exp\": ".data,
      Char.toNat x < 256 := by decide
  have hlit2 : ∀ x ∈ ", \"iat\": ".data, Char.toNat x < 256 := by decide
  have hlit3 : ∀ x ∈ "\x7d".data, Char.toNat x < 256 := by decide
  simp only [List.mem_append] at hc
  rcases hc with ((((hc | hc) | hc) | hc) | hc)
  · exact hlit1 c hc
  · exact natRepr_lt _ c hc
  · exact hlit2 c hc
  · exact natRepr_lt _ c hc
  · exact hlit3 c hc

theorem countDot_expiredTokenString (now : Nat) : countDot (expiredTokenString now) = 2 := by
  unfold countDot expiredTokenString
  rw [String.data_append, String.data_append, String.data_append, String.data_append,
    List.count_append, List.count_append, List.count_append, List.count_append]
  have h1 : headerB64.data.count '.' = 0 :=
    List.count_eq_zero.2 (encode_no_dot (strBytes header_json))
  have h2 : (payloadB64 now).data.count '.' = 0 :=
    List.count_eq_zero.2 (encode_no_dot (strBytes (payload_json now)))
  have h3 : ("." : String).data.count '.' = 1 := by decide
  have h4 : ("fake_signature" : String).data.count '.' = 0 := by decide
  rw [h1, h2, h3, h4]

/-- C8: whenever `generate_expired_token` returns a string (in this pure model
it always does), that string contains exactly two `'.'` characters — it splits
uniquely as three dot-free segments — and the middle (payload) segment
base64url-decodes to the bytes of the JSON serialization `payload_json` of the
payload object, whose `exp` field `payload_exp now = now - 3600` is strictly
earlier than the generation clock `now` (any realistic epoch clock satisfies
`7200 ≤ now`, which also makes the `iat` subtraction exact). -/
theorem claim_C8_expired_token_shape (now : Nat) (t : String)
    (hclock : 7200 ≤ now) (hgen : generate_expired_token now = some t) :
    countDot t = 2 ∧
    (∃ s1 s2 s3 : String,
      t = s1 ++ "." ++ s2 ++ "." ++ s3 ∧
      '.' ∉ s1.data ∧ '.' ∉ s2.data ∧ '.' ∉ s3.data ∧
      base64urlDecode s2.data = some (strBytes (payload_json now))) ∧
    payload_exp now < now := by
  have ht : t = expiredTokenString now := (Option.some.inj hgen).symm
  subst ht
  refine ⟨countDot_expiredTokenString now,
    ⟨headerB64, payloadB64 now, "fake_signature", rfl,
      encode_no_dot (strBytes header_json), encode_no_dot (strBytes (payload_json now)),
      by decide, decode_encode _ (payload_json_lt now)⟩, ?_⟩
  unfold payload_exp
  omega

/-- Witness for C8 at the concrete clock 1700000000: construction succeeds,
the token has exactly two dots and its `exp` is in the past. -/
theorem claim_C8_witness :
    7200 ≤ 1700000000 ∧ countDot (expiredTokenString 1700000000) = 2 ∧
    payload_exp 1700000000 < 1700000000 := by
  have h := claim_C8_expired_token_shape 1700000000 (expiredTokenString 1700000000)
    (by omega) rfl
  exact ⟨by omega, h.1, h.2.2⟩
